import Mathlib

/-!
Verification of the dataset loading/cleaning pipeline of the
visualisation-tools-for-screening package.

The repository ships a user guide, a README and a demo notebook
(demo.ipynb); the module carrying the pipeline logic (datasets.py) is not
included in the sources, so the pipeline components are modelled from the
specification (sections 4.1 to 4.5), faithful to its words, while every
fact that is visible in the shipped sources (entry-point names, required
column names, demo calls) is embedded from those sources directly.
-/

namespace Screening

/-- The canonical schema: the seven column names every cleaned dataset
exposes, exactly as the demo notebook lists them for custom datasets
(demo.ipynb, Datasets section): Area Code, Area Name, Area Type,
Time period, Value, Age, Sex. -/
def canonicalColumns : List String :=
  ["Area Code", "Area Name", "Area Type", "Time period", "Value", "Age", "Sex"]

/-- The loader entry points the datasets module exposes, embedded from the
demo notebook: "There are three functions available: load_cerv(),
load_bowel() and load_breast()", plus "importing a custom dataset, using
the load_custom() function". -/
def loaderEntryPoints : List String :=
  ["load_cerv", "load_bowel", "load_breast", "load_custom"]

/-- The column the demo notebook passes to the histogram consumer:
histogram(df, col='Value', ...). -/
def demoHistogramCol : String := "Value"

/-- A cell is blank when it is empty or consists of whitespace only. -/
def isBlank (s : String) : Bool := s.data.all (fun c => c.isWhitespace)

/-- Value of a digit string, left to right; fails on a non-digit. -/
def digitsVal (cs : List Char) : Option Nat :=
  cs.foldl
    (fun acc c =>
      match acc with
      | none => none
      | some n => if c.isDigit then some (10 * n + (c.toNat - 48)) else none)
    (some 0)

/-- Parse a non-empty all-digit character list as a natural number. -/
def parseNatChars (cs : List Char) : Option Nat :=
  match cs with
  | [] => none
  | _ => digitsVal cs

/-- Parse an optionally negated digit string as an integer. -/
def parseIntChars (cs : List Char) : Option Int :=
  match cs with
  | '-' :: rest => (parseNatChars rest).map (fun n => -(n : Int))
  | _ => (parseNatChars cs).map (fun n => (n : Int))

/-- Split a character list at the first dot, if any. -/
def breakDot : List Char → List Char × Option (List Char)
  | [] => ([], none)
  | c :: cs =>
    if c = '.' then ([], some cs)
    else
      let r := breakDot cs
      (c :: r.1, r.2)

/-- Parse an unsigned decimal numeral (digits, optionally followed by a dot
and digits) as a fraction: numerator and denominator (a power of ten). -/
def parseUnsignedDec (cs : List Char) : Option (Nat × Nat) :=
  match breakDot cs with
  | (ip, none) => (parseNatChars ip).map (fun n => (n, 1))
  | (ip, some fp) =>
    match parseNatChars ip, parseNatChars fp with
    | some i, some f => some (i * 10 ^ fp.length + f, 10 ^ fp.length)
    | _, _ => none

/-- Modelled from the spec: the numeric coercion of the Value column
(section 4.3 of the spec; datasets.py is absent from the sources). A cell
parses as a floating-point number exactly when it is a decimal numeral;
the value is represented exactly as a rational. -/
def parseValue (s : String) : Option ℚ :=
  match s.data with
  | '-' :: rest => (parseUnsignedDec rest).map (fun p => mkRat (-(p.1 : Int)) p.2)
  | _ => (parseUnsignedDec s.data).map (fun p => mkRat p.1 p.2)

/-- Modelled from the spec: the coercion of the Time period column to an
integer year (section 3 of the spec; datasets.py is absent from the
sources). -/
def parseTimePeriod (s : String) : Option Int := parseIntChars s.data

/-- One row of a cleaned table (spec, section 3). -/
structure ScreeningRecord where
  area_code : String
  area_name : String
  area_type : String
  time_period : Int
  value : ℚ
  age : String
  sex : String
deriving DecidableEq, Repr

/-- A cleaned Dataset: an ordered collection of ScreeningRecord. -/
abbrev Dataset := List ScreeningRecord

/-- Errors of the load pipeline (spec, section 7). -/
inductive LoadError where
  | fileAccessError (path : String)
  | parseError (path : String)
  | schemaError (column : String)
deriving DecidableEq, Repr

/-- Decidable equality of load outcomes, for concrete evaluation. -/
instance {ε α : Type} [DecidableEq ε] [DecidableEq α] :
    DecidableEq (Except ε α) := fun a b =>
  match a, b with
  | Except.error e, Except.error f =>
    if h : e = f then isTrue (by rw [h])
    else isFalse (fun hh => h (by cases hh; rfl))
  | Except.ok x, Except.ok y =>
    if h : x = y then isTrue (by rw [h])
    else isFalse (fun hh => h (by cases hh; rfl))
  | Except.error _, Except.ok _ => isFalse (fun hh => by cases hh)
  | Except.ok _, Except.error _ => isFalse (fun hh => by cases hh)

/-- An in-memory delimited table: a header row of column names and body
rows of cells. -/
structure RawTable where
  header : List String
  rows : List (List String)
deriving DecidableEq, Repr

/-- Modelled from the spec: the Raw Source Reader (section 4.1;
datasets.py is absent from the sources). The file system is abstracted as
a map from paths to raw tables; a path that does not resolve fails with a
FileAccessError, a table whose rows do not align with its header fails
with a ParseError, and otherwise the table is produced unchanged. -/
def readRaw (fs : String → Option RawTable) (path : String) :
    Except LoadError RawTable :=
  match fs path with
  | none => Except.error (LoadError.fileAccessError path)
  | some t =>
    if t.rows.all (fun r => r.length = t.header.length) then Except.ok t
    else Except.error (LoadError.parseError path)

/-- Index of the first occurrence of a column name in a header. -/
def findIdx (c : String) : List String → Option Nat
  | [] => none
  | h :: t => if h = c then some 0 else (findIdx c t).map (fun i => i + 1)

/-- Select the cells of one row in canonical column order, following the
positions of the canonical names in the source header. -/
def selectCells (hdr : List String) (row : List String) : List String :=
  canonicalColumns.map
    (fun c =>
      match findIdx c hdr with
      | some i => row.getD i ""
      | none => "")

/-- Modelled from the spec: the Column Normalizer (section 4.2;
datasets.py is absent from the sources). Columns are renamed/selected onto
the canonical schema, columns outside the schema are dropped, and a
missing required canonical column fails with a SchemaError naming it. No
numeric coercion happens here. -/
def normalize (t : RawTable) : Except LoadError RawTable :=
  match canonicalColumns.find? (fun c => ! t.header.contains c) with
  | some c => Except.error (LoadError.schemaError c)
  | none =>
    Except.ok { header := canonicalColumns,
                rows := t.rows.map (selectCells t.header) }

/-- Modelled from the spec: the Missing-Value Resolver at one row
(section 4.3; datasets.py is absent from the sources). A row is dropped
when any of area_code, area_name, area_type is blank or when the
Time period or Value cell does not parse; a blank Age or Sex is retained
as the explicit "Unknown" category; critical fields are never defaulted. -/
def resolveRow (cells : List String) : Option ScreeningRecord :=
  match cells with
  | [ac, an, aty, tp, v, ag, sx] =>
    if isBlank ac || isBlank an || isBlank aty then none
    else
      match parseTimePeriod tp, parseValue v with
      | some year, some val =>
        some { area_code := ac, area_name := an, area_type := aty,
               time_period := year, value := val,
               age := if isBlank ag then "Unknown" else ag,
               sex := if isBlank sx then "Unknown" else sx }
      | _, _ => none
  | _ => none

/-- Modelled from the spec: the Missing-Value Resolver over a table
(section 4.3). Rows that resolve survive, in order; the rest are
dropped. -/
def resolve (rows : List (List String)) : Dataset := rows.filterMap resolveRow

/-- The shared part of every load: read, normalize, resolve (spec,
sections 4.1 to 4.3). -/
def pipeline (fs : String → Option RawTable) (path : String) :
    Except LoadError Dataset :=
  match readRaw fs path with
  | Except.error e => Except.error e
  | Except.ok raw =>
    match normalize raw with
    | Except.error e => Except.error e
    | Except.ok norm => Except.ok (resolve norm.rows)

/-- Bundled sample file for the bowel programme (README: data folder). -/
def bowelPath : String := "data/bowel_cancer_data.csv"

/-- Bundled sample file for the breast programme (README: data folder). -/
def breastPath : String := "data/breast_cancer_data.csv"

/-- Bundled sample file for the cervical programme (README: data
folder). -/
def cervPath : String := "data/cervical_cancer_data.csv"

/-- Modelled from the spec: the breast Programme-Specific Cleaner
(section 4.4; datasets.py is absent from the sources): a pure row filter
retaining only records where sex = "Female". -/
def breastClean (d : Dataset) : Dataset :=
  d.filter (fun r => r.sex = "Female")

/-- Modelled from the spec: the cervical Programme-Specific Cleaner
(section 4.4; datasets.py is absent from the sources): a pure row filter
retaining only records where sex = "Female". -/
def cervClean (d : Dataset) : Dataset :=
  d.filter (fun r => r.sex = "Female")

/-- Modelled from the spec: the bowel Programme-Specific Cleaner
(section 4.4; datasets.py is absent from the sources). The spec leaves the
bowel filter unspecified beyond being a pure row filter (its example is an
age-band restriction); it is modelled as retaining rows whose age band is
known, i.e. not the "Unknown" sentinel. -/
def bowelClean (d : Dataset) : Dataset :=
  d.filter (fun r => r.age ≠ "Unknown")

/-- Modelled from the spec: the bowel loader of the facade (section 4.5;
datasets.py is absent from the sources): the fixed composition
reader, normalizer, resolver, bowel cleaner on the bundled bowel file. -/
def load_bowel (fs : String → Option RawTable) : Except LoadError Dataset :=
  match readRaw fs bowelPath with
  | Except.error e => Except.error e
  | Except.ok raw =>
    match normalize raw with
    | Except.error e => Except.error e
    | Except.ok norm => Except.ok (bowelClean (resolve norm.rows))

/-- Modelled from the spec: the breast loader of the facade (section 4.5;
datasets.py is absent from the sources): the fixed composition
reader, normalizer, resolver, breast cleaner on the bundled breast
file. -/
def load_breast (fs : String → Option RawTable) : Except LoadError Dataset :=
  match readRaw fs breastPath with
  | Except.error e => Except.error e
  | Except.ok raw =>
    match normalize raw with
    | Except.error e => Except.error e
    | Except.ok norm => Except.ok (breastClean (resolve norm.rows))

/-- Modelled from the spec: the cervical loader of the facade
(section 4.5; datasets.py is absent from the sources; the demo notebook
names it load_cerv): the fixed composition reader, normalizer, resolver,
cervical cleaner on the bundled cervical file. -/
def load_cerv (fs : String → Option RawTable) : Except LoadError Dataset :=
  match readRaw fs cervPath with
  | Except.error e => Except.error e
  | Except.ok raw =>
    match normalize raw with
    | Except.error e => Except.error e
    | Except.ok norm => Except.ok (cervClean (resolve norm.rows))

/-- Modelled from the spec: the custom loader of the facade (section 4.5;
datasets.py is absent from the sources): the shared pipeline with no
programme-specific filter, against a user-supplied file. -/
def load_custom (fs : String → Option RawTable) (path : String) :
    Except LoadError Dataset :=
  pipeline fs path

/-- The canonical-field comparison tuple of a record (spec, section 8:
idempotence is stated on (area_code, time_period, age, sex, value)
tuples). -/
def canonTuple (r : ScreeningRecord) : String × Int × String × String × ℚ :=
  (r.area_code, r.time_period, r.age, r.sex, r.value)

/-- A small concrete sample table over the canonical schema: one fully
valid row (the demo notebook's example cells), one row with a blank Area
Code, and one row with a blank Age and sex Male. -/
def sampleTable : RawTable :=
  { header := canonicalColumns,
    rows := [["E12000001", "Exeter", "LA", "2010", "77.5379545", "25-64 yrs", "Female"],
             ["", "Nowhere", "LA", "2011", "50", "60-74 yrs", "Female"],
             ["E92000001", "England", "England", "2012", "61.1", "", "Male"]] }

/-- A concrete file system serving the sample table at every bundled
programme path. -/
def sampleFs : String → Option RawTable := fun p =>
  if p = bowelPath || p = breastPath || p = cervPath then some sampleTable
  else none

/-- The cleaned record the sample table's valid row resolves to. -/
def sampleRecord : ScreeningRecord :=
  { area_code := "E12000001", area_name := "Exeter", area_type := "LA",
    time_period := 2010, value := mkRat 775379545 10000000,
    age := "25-64 yrs", sex := "Female" }

/-- A concrete custom table lacking the required Value column. -/
def noValueTable : RawTable :=
  { header := ["Area Code", "Area Name", "Area Type", "Time period", "Age", "Sex"],
    rows := [["E12000001", "Exeter", "LA", "2010", "25-64 yrs", "Female"]] }

/-- A concrete file system serving the table without a Value column at a
custom path. -/
def noValueFs : String → Option RawTable := fun p =>
  if p = "data/custom.csv" then some noValueTable else none

/-- A concrete table whose only row has sex Male, so the female filter of
the breast programme matches zero rows. -/
def maleTable : RawTable :=
  { header := canonicalColumns,
    rows := [["E12000001", "Exeter", "LA", "2010", "50", "60-74 yrs", "Male"]] }

/-- A concrete file system serving the all-male table at the bundled
breast path. -/
def maleFs : String → Option RawTable := fun p =>
  if p = breastPath then some maleTable else none

/-- The record the all-male table's row resolves to. -/
def maleRecord : ScreeningRecord :=
  { area_code := "E12000001", area_name := "Exeter", area_type := "LA",
    time_period := 2010, value := mkRat 50 1,
    age := "60-74 yrs", sex := "Male" }

/-- A concrete well-formed custom table with all seven canonical columns
and exactly one row, whose Value cell is the demo notebook's example
string. -/
def customTable : RawTable :=
  { header := canonicalColumns,
    rows := [["E12000001", "Exeter", "LA", "2010", "77.5379545", "25-64 yrs", "Female"]] }

/-- A concrete file system serving the well-formed custom table at a
custom path. -/
def customFs : String → Option RawTable := fun p =>
  if p = "data/custom.csv" then some customTable else none

/-- A record produced by the row resolver has non-blank critical string
fields, a time period parsed from some cell, and a value parsed from some
cell. -/
theorem resolveRow_sound {cs : List String} {r : ScreeningRecord}
    (h : resolveRow cs = some r) :
    isBlank r.area_code = false ∧ isBlank r.area_name = false ∧
    isBlank r.area_type = false ∧
    (∃ s, parseTimePeriod s = some r.time_period) ∧
    (∃ s, parseValue s = some r.value) := by
  unfold resolveRow at h
  split at h
  · rename_i ac an aty tp v ag sx
    split at h
    · exact absurd h (by simp)
    · rename_i hguard
      simp only [Bool.not_eq_true, Bool.or_eq_false_iff] at hguard
      split at h
      · rename_i year val htp hv
        cases h
        exact ⟨hguard.1.1, hguard.1.2, hguard.2, ⟨tp, htp⟩, ⟨v, hv⟩⟩
      · exact absurd h (by simp)
  · exact absurd h (by simp)

/-- Every record of a resolved table comes from some source row that the
row resolver accepted. -/
theorem mem_resolve {rows : List (List String)} {r : ScreeningRecord}
    (h : r ∈ resolve rows) : ∃ cs ∈ rows, resolveRow cs = some r :=
  List.mem_filterMap.mp h

/-- The bowel loader is the bowel cleaner mapped over the shared
pipeline. -/
theorem load_bowel_eq (fs : String → Option RawTable) :
    load_bowel fs = Except.map bowelClean (pipeline fs bowelPath) := by
  unfold load_bowel pipeline
  cases hr : readRaw fs bowelPath with
  | error e => simp [Except.map]
  | ok t =>
    cases hn : normalize t with
    | error e => simp [hn, Except.map]
    | ok n => simp [hn, Except.map]

/-- The breast loader is the breast cleaner mapped over the shared
pipeline. -/
theorem load_breast_eq (fs : String → Option RawTable) :
    load_breast fs = Except.map breastClean (pipeline fs breastPath) := by
  unfold load_breast pipeline
  cases hr : readRaw fs breastPath with
  | error e => simp [Except.map]
  | ok t =>
    cases hn : normalize t with
    | error e => simp [hn, Except.map]
    | ok n => simp [hn, Except.map]

/-- The cervical loader is the cervical cleaner mapped over the shared
pipeline. -/
theorem load_cerv_eq (fs : String → Option RawTable) :
    load_cerv fs = Except.map cervClean (pipeline fs cervPath) := by
  unfold load_cerv pipeline
  cases hr : readRaw fs cervPath with
  | error e => simp [Except.map]
  | ok t =>
    cases hn : normalize t with
    | error e => simp [hn, Except.map]
    | ok n => simp [hn, Except.map]

/-- A successful run of the shared pipeline yields exactly the resolver's
output on the normalized rows. -/
theorem pipeline_ok {fs : String → Option RawTable} {p : String}
    {ds : Dataset} (h : pipeline fs p = Except.ok ds) :
    ∃ t n, readRaw fs p = Except.ok t ∧ normalize t = Except.ok n ∧
      ds = resolve n.rows := by
  unfold pipeline at h
  split at h
  · exact absurd h (by simp)
  · rename_i t hr
    split at h
    · exact absurd h (by simp)
    · rename_i n hn
      cases h
      exact ⟨t, n, hr, hn, rfl⟩

/-- A loader built as a cleaner mapped over the pipeline succeeds exactly
when the pipeline does, with the cleaner applied. -/
theorem map_clean_ok {g : Dataset → Dataset}
    {e : Except LoadError Dataset} {ds : Dataset}
    (h : Except.map g e = Except.ok ds) :
    ∃ d, e = Except.ok d ∧ ds = g d := by
  cases e with
  | error err => exact absurd h (by simp [Except.map])
  | ok d =>
    refine ⟨d, rfl, ?_⟩
    simp only [Except.map] at h
    cases h
    rfl

/-- C1 counterexample: the claim says the facade exposes an entry point
named load_cervical; per the demo notebook the cervical entry point is
named load_cerv, and no entry point is named load_cervical. -/
theorem c1_no_load_cervical_entry_point :
    "load_cervical" ∉ loaderEntryPoints ∧ "load_cerv" ∈ loaderEntryPoints ∧
    "load_bowel" ∈ loaderEntryPoints ∧ "load_breast" ∈ loaderEntryPoints ∧
    "load_custom" ∈ loaderEntryPoints := by
  decide

/-- C1 (amended): the dataset loader facade exposes exactly one entry
point per programme, named load_bowel, load_breast and load_cerv (not
load_cervical), plus load_custom; each programme loader is the fixed
composition of raw source reader, column normalizer and missing-value
resolver (the shared pipeline) followed by that programme's cleaner on
that programme's bundled sample file, and load_custom runs the shared
pipeline on the supplied path. -/
theorem c1_facade_entry_points_and_composition :
    loaderEntryPoints = ["load_cerv", "load_bowel", "load_breast", "load_custom"] ∧
    ∀ fs : String → Option RawTable,
      load_bowel fs = Except.map bowelClean (pipeline fs bowelPath) ∧
      load_breast fs = Except.map breastClean (pipeline fs breastPath) ∧
      load_cerv fs = Except.map cervClean (pipeline fs cervPath) ∧
      ∀ path, load_custom fs path = pipeline fs path :=
  ⟨rfl, fun fs =>
    ⟨load_bowel_eq fs, load_breast_eq fs, load_cerv_eq fs, fun _ => rfl⟩⟩

/-- C2: for every input file system, every record of a Dataset returned
by the bowel, breast or cervical loader has non-blank area_code,
area_name and area_type, a time period parsed from a source cell, and a
value parsed as a number from a source cell; no record violating this
survives cleaning. -/
theorem c2_loader_records_clean (fs : String → Option RawTable)
    (ds : Dataset)
    (h : load_bowel fs = Except.ok ds ∨ load_breast fs = Except.ok ds ∨
      load_cerv fs = Except.ok ds) :
    ∀ r ∈ ds,
      isBlank r.area_code = false ∧ isBlank r.area_name = false ∧
      isBlank r.area_type = false ∧
      (∃ s, parseTimePeriod s = some r.time_period) ∧
      (∃ s, parseValue s = some r.value) := by
  intro r hr
  have hres : ∃ rows, r ∈ resolve rows := by
    rcases h with h | h | h
    · rw [load_bowel_eq] at h
      obtain ⟨d, hd, rfl⟩ := map_clean_ok h
      obtain ⟨t, n, _, _, rfl⟩ := pipeline_ok hd
      exact ⟨n.rows, List.mem_of_mem_filter hr⟩
    · rw [load_breast_eq] at h
      obtain ⟨d, hd, rfl⟩ := map_clean_ok h
      obtain ⟨t, n, _, _, rfl⟩ := pipeline_ok hd
      exact ⟨n.rows, List.mem_of_mem_filter hr⟩
    · rw [load_cerv_eq] at h
      obtain ⟨d, hd, rfl⟩ := map_clean_ok h
      obtain ⟨t, n, _, _, rfl⟩ := pipeline_ok hd
      exact ⟨n.rows, List.mem_of_mem_filter hr⟩
  obtain ⟨rows, hmem⟩ := hres
  obtain ⟨cs, _, hcs⟩ := mem_resolve hmem
  exact resolveRow_sound hcs

/-- C2 witness: the postcondition holds of the record the bowel loader
returns on the concrete sample file system. -/
theorem c2_loader_records_clean_witness :
    isBlank sampleRecord.area_code = false ∧
    isBlank sampleRecord.area_name = false ∧
    isBlank sampleRecord.area_type = false ∧
    (∃ s, parseTimePeriod s = some sampleRecord.time_period) ∧
    (∃ s, parseValue s = some sampleRecord.value) :=
  c2_loader_records_clean sampleFs [sampleRecord] (Or.inl (by decide))
    sampleRecord (by decide)

/-- C6: two successive calls of the bowel loader against the unchanged
file system return equal Datasets, and in particular equal collections of
canonical (area_code, time_period, age, sex, value) tuples. -/
theorem c6_load_bowel_idempotent (fs : String → Option RawTable)
    (d1 d2 : Dataset) (h1 : load_bowel fs = Except.ok d1)
    (h2 : load_bowel fs = Except.ok d2) :
    d1 = d2 ∧ d1.map canonTuple = d2.map canonTuple := by
  have hd : d1 = d2 := by
    have h := h1.symm.trans h2
    cases h
    rfl
  exact ⟨hd, by rw [hd]⟩

/-- C6 witness: two calls of the bowel loader on the concrete sample file
system agree. -/
theorem c6_load_bowel_idempotent_witness :
    [sampleRecord] = [sampleRecord] ∧
    [sampleRecord].map canonTuple = [sampleRecord].map canonTuple :=
  c6_load_bowel_idempotent sampleFs [sampleRecord] [sampleRecord]
    (by decide) (by decide)

/-- C7: whenever the programme-specific filter matches zero rows of the
resolver's output, the loader raises no error: it returns the empty (but
structurally valid) Dataset. -/
theorem c7_empty_filter_result_ok (fs : String → Option RawTable)
    (d : Dataset) :
    (pipeline fs bowelPath = Except.ok d → bowelClean d = [] →
      load_bowel fs = Except.ok []) ∧
    (pipeline fs breastPath = Except.ok d → breastClean d = [] →
      load_breast fs = Except.ok []) ∧
    (pipeline fs cervPath = Except.ok d → cervClean d = [] →
      load_cerv fs = Except.ok []) := by
  refine ⟨?_, ?_, ?_⟩
  · intro hp hf
    rw [load_bowel_eq, hp]
    simp [Except.map, hf]
  · intro hp hf
    rw [load_breast_eq, hp]
    simp [Except.map, hf]
  · intro hp hf
    rw [load_cerv_eq, hp]
    simp [Except.map, hf]

/-- C7 witness: on the concrete all-male table the breast filter matches
zero rows and the breast loader returns the empty Dataset. -/
theorem c7_empty_filter_result_ok_witness :
    load_breast maleFs = Except.ok [] :=
  (c7_empty_filter_result_ok maleFs [maleRecord]).2.1 (by decide) (by decide)

/-- C3: on a readable, well-delimited user file whose header lacks the
required canonical column Value (and carries every other canonical
column), load_custom fails with a SchemaError naming "Value" and returns
no partial Dataset. -/
theorem c3_load_custom_missing_value_schema_error
    (fs : String → Option RawTable) (path : String) (t : RawTable)
    (hfs : fs path = some t)
    (halign : t.rows.all (fun r => r.length = t.header.length) = true)
    (hmissing : "Value" ∉ t.header)
    (hothers : ∀ c ∈ canonicalColumns, c ≠ "Value" → c ∈ t.header) :
    load_custom fs path = Except.error (LoadError.schemaError "Value") := by
  have hr : readRaw fs path = Except.ok t := by
    unfold readRaw
    rw [hfs]
    simp [halign]
  have hm1 : "Area Code" ∈ t.header := hothers _ (by decide) (by decide)
  have hm2 : "Area Name" ∈ t.header := hothers _ (by decide) (by decide)
  have hm3 : "Area Type" ∈ t.header := hothers _ (by decide) (by decide)
  have hm4 : "Time period" ∈ t.header := hothers _ (by decide) (by decide)
  have hfind : List.find? (fun c => ! t.header.contains c) canonicalColumns =
      some "Value" := by
    unfold canonicalColumns
    rw [List.find?_cons_of_neg _ (by simp [hm1]),
      List.find?_cons_of_neg _ (by simp [hm2]),
      List.find?_cons_of_neg _ (by simp [hm3]),
      List.find?_cons_of_neg _ (by simp [hm4]),
      List.find?_cons_of_pos _ (by simp [hmissing])]
  have hn : normalize t = Except.error (LoadError.schemaError "Value") := by
    unfold normalize
    rw [hfind]
  unfold load_custom pipeline
  rw [hr]
  simp [hn]

/-- C3 witness: on the concrete custom table without a Value column,
load_custom fails with a SchemaError naming "Value". -/
theorem c3_load_custom_missing_value_schema_error_witness :
    load_custom noValueFs "data/custom.csv" =
      Except.error (LoadError.schemaError "Value") :=
  c3_load_custom_missing_value_schema_error noValueFs "data/custom.csv"
    noValueTable (by decide) (by decide) (by decide) (by decide)

/-- C4: every record of a Dataset returned by the breast or the cervical
loader has sex "Female", and the programme cleaner is a pure row filter:
the returned Dataset is the cleaner applied to the resolver-stage Dataset
and a sublist of it, with records unchanged. -/
theorem c4_breast_cerv_female (fs : String → Option RawTable)
    (ds : Dataset) :
    (load_breast fs = Except.ok ds →
      (∀ r ∈ ds, r.sex = "Female") ∧
      ∃ d, pipeline fs breastPath = Except.ok d ∧ ds = breastClean d ∧
        ds.Sublist d) ∧
    (load_cerv fs = Except.ok ds →
      (∀ r ∈ ds, r.sex = "Female") ∧
      ∃ d, pipeline fs cervPath = Except.ok d ∧ ds = cervClean d ∧
        ds.Sublist d) := by
  constructor
  · intro h
    rw [load_breast_eq] at h
    obtain ⟨d, hd, rfl⟩ := map_clean_ok h
    refine ⟨?_, d, hd, rfl, List.filter_sublist d⟩
    intro r hr
    simp only [breastClean, List.mem_filter, decide_eq_true_eq] at hr
    exact hr.2
  · intro h
    rw [load_cerv_eq] at h
    obtain ⟨d, hd, rfl⟩ := map_clean_ok h
    refine ⟨?_, d, hd, rfl, List.filter_sublist d⟩
    intro r hr
    simp only [cervClean, List.mem_filter, decide_eq_true_eq] at hr
    exact hr.2

/-- C4 witness: the breast loader on the concrete sample file system
returns only female records, obtained as the pure female filter of the
resolver-stage Dataset. -/
theorem c4_breast_cerv_female_witness :
    (∀ r ∈ [sampleRecord], r.sex = "Female") ∧
    ∃ d, pipeline sampleFs breastPath = Except.ok d ∧
      [sampleRecord] = breastClean d ∧ [sampleRecord].Sublist d :=
  (c4_breast_cerv_female sampleFs [sampleRecord]).1 (by decide)

/-- C5: the missing-value resolver drops a source row whose Area Code,
Area Name or Area Type cell is blank or whose Time period or Value cell
does not parse; a surviving row keeps its critical fields exactly as in
the source (never defaulted); and a row with a blank Age is retained with
age set to the explicit "Unknown" marker rather than dropped. -/
theorem c5_missing_value_policy (ac an aty tp v ag sx : String) :
    ((isBlank ac = true ∨ isBlank an = true ∨ isBlank aty = true) →
      resolveRow [ac, an, aty, tp, v, ag, sx] = none) ∧
    (parseTimePeriod tp = none →
      resolveRow [ac, an, aty, tp, v, ag, sx] = none) ∧
    (parseValue v = none →
      resolveRow [ac, an, aty, tp, v, ag, sx] = none) ∧
    (∀ r, resolveRow [ac, an, aty, tp, v, ag, sx] = some r →
      r.area_code = ac ∧ r.area_name = an ∧ r.area_type = aty ∧
      parseTimePeriod tp = some r.time_period ∧
      parseValue v = some r.value ∧
      r.age = (if isBlank ag then "Unknown" else ag) ∧
      r.sex = (if isBlank sx then "Unknown" else sx)) ∧
    (isBlank ac = false → isBlank an = false → isBlank aty = false →
      ∀ year val, parseTimePeriod tp = some year → parseValue v = some val →
        isBlank ag = true →
        resolveRow [ac, an, aty, tp, v, ag, sx] =
          some { area_code := ac, area_name := an, area_type := aty,
                 time_period := year, value := val, age := "Unknown",
                 sex := if isBlank sx then "Unknown" else sx }) := by
  refine ⟨?_, ?_, ?_, ?_, ?_⟩
  · intro h
    rcases h with h | h | h <;> simp [resolveRow, h]
  · intro h
    simp [resolveRow, h]
  · intro h
    simp [resolveRow, h]
  · intro r h
    simp only [resolveRow] at h
    split at h
    · exact absurd h (by simp)
    · split at h
      · rename_i year val htp hv
        cases h
        exact ⟨rfl, rfl, rfl, htp, hv, rfl, rfl⟩
      · exact absurd h (by simp)
  · intro hac han haty year val htp hv hag
    simp [resolveRow, hac, han, haty, htp, hv, hag]

/-- C5 witness: the sample row with a blank Area Code is dropped, and the
sample row with a blank Age is retained with age "Unknown". -/
theorem c5_missing_value_policy_witness :
    resolveRow ["", "Nowhere", "LA", "2011", "50", "60-74 yrs", "Female"] =
      none ∧
    resolveRow ["E92000001", "England", "England", "2012", "61.1", "", "Male"] =
      some { area_code := "E92000001", area_name := "England",
             area_type := "England", time_period := 2012,
             value := mkRat 611 10, age := "Unknown",
             sex := if isBlank "Male" then "Unknown" else "Male" } :=
  ⟨(c5_missing_value_policy "" "Nowhere" "LA" "2011" "50" "60-74 yrs"
        "Female").1 (Or.inl (by decide)),
    (c5_missing_value_policy "E92000001" "England" "England" "2012" "61.1"
        "" "Male").2.2.2.2 (by decide) (by decide) (by decide) 2012
      (mkRat 611 10) (by decide) (by decide) (by decide)⟩

/-- C8: load_custom on a well-formed file with all seven canonical
columns and exactly one row whose Value cell is the string "77.5379545"
returns a Dataset with exactly one record whose value equals the number
77.5379545 and whose time_period equals the integer year parsed from the
source row. -/
theorem c8_load_custom_single_row
    (fs : String → Option RawTable) (path : String)
    (ac an aty tps ag sx : String) (year : Int)
    (hfs : fs path =
      some ⟨canonicalColumns, [[ac, an, aty, tps, "77.5379545", ag, sx]]⟩)
    (hac : isBlank ac = false) (han : isBlank an = false)
    (haty : isBlank aty = false)
    (htp : parseTimePeriod tps = some year) :
    load_custom fs path =
      Except.ok [{ area_code := ac, area_name := an, area_type := aty,
                   time_period := year, value := (77.5379545 : ℚ),
                   age := if isBlank ag then "Unknown" else ag,
                   sex := if isBlank sx then "Unknown" else sx }] := by
  have hval : parseValue "77.5379545" = some (77.5379545 : ℚ) := by
    have h : parseValue "77.5379545" = some (mkRat 775379545 10000000) := by
      decide
    rw [h, Rat.mkRat_eq_divInt]
    norm_num [Rat.divInt_eq_div]
  have hr : readRaw fs path =
      Except.ok ⟨canonicalColumns, [[ac, an, aty, tps, "77.5379545", ag, sx]]⟩ := by
    unfold readRaw
    rw [hfs]
    simp [canonicalColumns]
  have hfind : List.find? (fun c => ! canonicalColumns.contains c)
      canonicalColumns = none := by decide
  have hsel : selectCells canonicalColumns
      [ac, an, aty, tps, "77.5379545", ag, sx] =
      [ac, an, aty, tps, "77.5379545", ag, sx] := rfl
  unfold load_custom pipeline
  rw [hr]
  simp only [normalize, hfind, hsel, List.map, resolve, List.filterMap,
    resolveRow, hac, han, haty, htp, hval, Bool.or_self, Bool.false_or,
    Bool.or_false, if_false]
  simp [hac, han, haty]

/-- C8 witness: load_custom on the concrete well-formed one-row custom
table returns the single expected record. -/
theorem c8_load_custom_single_row_witness :
    load_custom customFs "data/custom.csv" =
      Except.ok [{ area_code := "E12000001", area_name := "Exeter",
                   area_type := "LA", time_period := 2010,
                   value := (77.5379545 : ℚ),
                   age := if isBlank "25-64 yrs" then "Unknown" else "25-64 yrs",
                   sex := if isBlank "Female" then "Unknown" else "Female" }] :=
  c8_load_custom_single_row customFs "data/custom.csv" "E12000001" "Exeter"
    "LA" "2010" "25-64 yrs" "Female" 2010 (by decide) (by decide) (by decide)
    (by decide) (by decide)

/-- C9: every normalized table exposes exactly the seven title-case
source column names Area Code, Area Name, Area Type, Time period, Value,
Age, Sex; the column the demo notebook passes to histogram is one of
them; and none of the exposed names is snake_case (each contains an
uppercase letter and no underscore). -/
theorem c9_canonical_title_case_columns (t t2 : RawTable)
    (h : normalize t = Except.ok t2) :
    t2.header = canonicalColumns ∧
    demoHistogramCol ∈ t2.header ∧
    ∀ c ∈ t2.header,
      c.data.any (fun ch => ch.isUpper) = true ∧
      c.data.all (fun ch => ch != '_') = true := by
  have hh : t2.header = canonicalColumns := by
    unfold normalize at h
    split at h
    · exact absurd h (by simp)
    · cases h
      rfl
  refine ⟨hh, ?_, ?_⟩
  · rw [hh]
    decide
  · rw [hh]
    decide

/-- C9 witness: the sample table normalizes to itself, exposing the
title-case canonical column names. -/
theorem c9_canonical_title_case_columns_witness :
    sampleTable.header = canonicalColumns ∧
    demoHistogramCol ∈ sampleTable.header ∧
    ∀ c ∈ sampleTable.header,
      c.data.any (fun ch => ch.isUpper) = true ∧
      c.data.all (fun ch => ch != '_') = true :=
  c9_canonical_title_case_columns sampleTable sampleTable (by decide)

end Screening
